import Mathlib

/-!
Shallow embedding of `src/gke-cluster.py` (the GKE cluster lifecycle driver).

The script drives four intents (create, delete, scale, list) against the
Google Cloud control plane.  Every mutating call returns a long-running
operation that the script polls with a `while True` loop and `time.sleep`.
We embed that control flow as fuel-indexed Lean functions:

* provider operation statuses become the enumerations `CompStatus`
  (compute_v1: PENDING / RUNNING / DONE) and `CtrStatus`
  (container_v1: STATUS_UNSPECIFIED / PENDING / RUNNING / DONE / ABORTING);
* a status stream `Nat → Status` gives the status the provider reports at
  the n-th poll of one operation;
* each `while True` poll loop becomes a fuel-indexed recursion that also
  accumulates the total time slept (the source's fixed `time.sleep`
  constants), returning `none` when the loop has not exited within the
  given fuel — so `∀ fuel, loop = none` states that the source loop spins
  forever on that stream;
* calls into the cloud clients that can raise are modelled by explicit
  Boolean success flags in an environment record, mirroring the source's
  `try`/`except` structure;
* the observable behaviour of `delete_cluster` is recorded as a trace of
  events in execution order, so that stage ordering is visible.
-/

/-- Status of a `compute_v1` operation as observed by
`region_operations_client.get` / `zone_operations_client.get`. -/
inductive CompStatus
  | pending
  | running
  | done
deriving DecidableEq

/-- Status of a `container_v1` operation as observed by
`cluster_manager_client.get_operation`. -/
inductive CtrStatus
  | unspecified
  | pending
  | running
  | done
  | aborting
deriving DecidableEq

/-- One `while True` poll loop over a compute operation (the loops at
lines 88-101, 454-463, 496-504 and 516-524 of the source): poll the stream,
exit when the status is `DONE`, otherwise sleep `interval` time units and
poll again.  `r` is the index of the next poll, the last argument is fuel.
Returns the total time slept, or `none` when the loop did not exit within
the fuel.  The source has no retry budget: every non-`DONE` status is simply
polled again. -/
def computeOpWait (stream : Nat → CompStatus) (interval : Nat) : Nat → Nat → Option Nat
  | _, 0 => none
  | r, fuel + 1 =>
    if stream r = CompStatus.done then some 0
    else (computeOpWait stream interval (r + 1) fuel).map (fun t => t + interval)

/-- One `while True` poll loop over a container operation (lines 283-304 and
408-425): exit with success on `DONE`, exit with failure on `ABORTING`,
otherwise sleep `interval` and poll again.  Returns the outcome and the total
time slept. -/
def containerOpWait (stream : Nat → CtrStatus) (interval : Nat) : Nat → Nat → Option (Bool × Nat)
  | _, 0 => none
  | r, fuel + 1 =>
    match stream r with
    | CtrStatus.done => some (true, 0)
    | CtrStatus.aborting => some (false, 0)
    | _ => (containerOpWait stream interval (r + 1) fuel).map (fun p => (p.1, p.2 + interval))

/-- The router-creation wait loop of `create_cloud_nat` (lines 88-101):
`time.sleep(5)` on every non-`DONE` status. -/
def routerCreateWait (stream : Nat → CompStatus) (fuel : Nat) : Option Nat :=
  computeOpWait stream 5 0 fuel

/-- The per-disk deletion wait loop of `delete_cluster` (lines 454-463):
`time.sleep(3)`. -/
def diskDeleteWait (stream : Nat → CompStatus) (fuel : Nat) : Option Nat :=
  computeOpWait stream 3 0 fuel

/-- The NAT-removal wait loop of `delete_cluster` (lines 496-504):
`time.sleep(3)`. -/
def natRemoveWait (stream : Nat → CompStatus) (fuel : Nat) : Option Nat :=
  computeOpWait stream 3 0 fuel

/-- The router-deletion wait loop of `delete_cluster` (lines 516-524):
`time.sleep(3)`. -/
def routerDeleteWait (stream : Nat → CompStatus) (fuel : Nat) : Option Nat :=
  computeOpWait stream 3 0 fuel

/-- The cluster-creation wait loop of `create_gke_cluster` (lines 283-304):
`time.sleep(30)`. -/
def createClusterWait (stream : Nat → CtrStatus) (fuel : Nat) : Option (Bool × Nat) :=
  containerOpWait stream 30 0 fuel

/-- The cluster-deletion wait loop of `delete_cluster` (lines 408-425):
`time.sleep(10)`. -/
def deleteClusterWait (stream : Nat → CtrStatus) (fuel : Nat) : Option (Bool × Nat) :=
  containerOpWait stream 10 0 fuel

/-- Python's substring test `needle in haystack` on character lists:
`needle` is a prefix of some suffix of `haystack`. -/
def occursIn (needle : List Char) : List Char → Bool
  | [] => needle.isPrefixOf []
  | c :: rest => needle.isPrefixOf (c :: rest) || occursIn needle rest

/-- Python's `needle in haystack` on strings. -/
def strIn (needle haystack : String) : Bool :=
  occursIn needle.data haystack.data

/-- The disk-selection test of `delete_cluster` (line 435):
`if f"gke-{cluster_name}" in disk.name or cluster_name in disk.name`. -/
def diskSelected (clusterName diskName : String) : Bool :=
  strIn ("gke-" ++ clusterName) diskName || strIn clusterName diskName

/-- A node pool of a cluster, as read back by `get_cluster`. -/
structure NodePool where
  name : String
  initialNodeCount : Nat
deriving DecidableEq

/-- Cluster status as reported by `container_v1.Cluster.Status`. -/
inductive ClusterStatus
  | unspecified
  | provisioning
  | running
  | reconciling
  | stopping
  | error
  | degraded
deriving DecidableEq

/-- A cluster snapshot as read back by `get_cluster`. -/
structure Cluster where
  name : String
  status : ClusterStatus
  nodePools : List NodePool
deriving DecidableEq

/-- Mapping of one poll of a container operation to a member outcome:
`DONE` resolves to success, `ABORTING` to failure, anything else leaves the
member unresolved (lines 625-632). -/
def pollOnce : CtrStatus → Option Bool
  | CtrStatus.done => some true
  | CtrStatus.aborting => some false
  | _ => none

/-- One pass of the scale polling loop over all members (the inner `for` at
lines 615-632): every member that is already done is skipped, every
unresolved member is polled once with its own operation's status at round
`r`. -/
def pollRound (streams : String → Nat → CtrStatus) (r : Nat)
    (st : List (String × Option Bool)) : List (String × Option Bool) :=
  st.map (fun m =>
    match m.2 with
    | some b => (m.1, some b)
    | none => (m.1, pollOnce (streams m.1 r)))

/-- The loop guard `all(status["done"] for status in operation_status.values())`
(lines 614 and 635). -/
def allDone (st : List (String × Option Bool)) : Bool :=
  st.all (fun m => m.2.isSome)

/-- The scale polling loop of `scale_cluster` (lines 614-636): while some
member is unresolved, poll every unresolved member once, then sleep 10 time
units if members remain unresolved.  Returns the final member states and
the total time slept, or `none` when the loop did not exit within the
fuel. -/
def drainLoop (streams : String → Nat → CtrStatus) (r : Nat) (fuel : Nat)
    (st : List (String × Option Bool)) : Option (List (String × Option Bool) × Nat) :=
  if allDone st then some (st, 0)
  else
    match fuel with
    | 0 => none
    | fuel + 1 =>
      let st2 := pollRound streams r st
      if allDone st2 then some (st2, 0)
      else (drainLoop streams (r + 1) fuel st2).map (fun p => (p.1, p.2 + 10))

/-- Observable outcome of one `scale_cluster` invocation: the returned
Boolean, the scaling mutations submitted (pool name and target size, in
submission order), the final per-member states, and the total time slept by
the polling loop. -/
structure ScaleOutcome where
  result : Bool
  submitted : List (String × Nat)
  members : List (String × Option Bool)
  elapsed : Nat
deriving DecidableEq

/-- The submit-then-drain body of `scale_cluster` (lines 589-638): submit a
`SetNodePoolSize` mutation for every targeted pool (the `for` loop at lines
590-602 runs before any polling), then drain all operations together and
compute `all_success` as the conjunction of the member outcomes. -/
def runScaleGroup (pools : List NodePool) (targetNodeCount : Nat)
    (streams : String → Nat → CtrStatus) (fuel : Nat) : Option ScaleOutcome :=
  match drainLoop streams 0 fuel (pools.map (fun q => (q.name, (none : Option Bool)))) with
  | none => none
  | some (st, t) =>
    some ⟨st.all (fun m => m.2 == some true),
          pools.map (fun q => (q.name, targetNodeCount)), st, t⟩

/-- `scale_cluster` (lines 548-660).  `cluster` is the result of the initial
`get_cluster` call (`none` models the call raising, lines 564-569).  The
cluster must be observed `RUNNING` (lines 571-573); with a named pool filter
that matches nothing the function fails before submitting anything (lines
577-582).  Poll queries themselves are modelled as never raising; their
reported statuses come from `streams`. -/
def scale_cluster (cluster : Option Cluster) (targetNodeCount : Nat)
    (poolName : Option String) (streams : String → Nat → CtrStatus)
    (fuel : Nat) : Option ScaleOutcome :=
  match cluster with
  | none => some ⟨false, [], [], 0⟩
  | some c =>
    if c.status = ClusterStatus.running then
      match poolName with
      | some p =>
        let pools := c.nodePools.filter (fun q => q.name == p)
        if pools.isEmpty then some ⟨false, [], [], 0⟩
        else runScaleGroup pools targetNodeCount streams fuel
      | none => runScaleGroup c.nodePools targetNodeCount streams fuel
    else some ⟨false, [], [], 0⟩

/-- Environment of `create_cloud_nat` (lines 40-146): whether the router and
its NAT config already exist (lines 55-71), whether `routers_client.insert`
succeeds (line 80), the status stream of the router-creation operation, and
whether the `gcloud` NAT-creation call exits with code 0 (lines 108-119). -/
structure NatEnv where
  routerExists : Bool
  natExists : Bool
  routerInsertOk : Bool
  routerOpStream : Nat → CompStatus
  natCreateOk : Bool

/-- `create_cloud_nat` (lines 40-146).  Returns `some true` on success,
`some false` when an exception was caught by the outer handler (line 137),
and `none` when the router-creation wait loop spins beyond the fuel. -/
def create_cloud_nat (env : NatEnv) (fuel : Nat) : Option Bool :=
  if env.routerExists && env.natExists then some true
  else if !env.routerInsertOk then some false
  else
    match routerCreateWait env.routerOpStream fuel with
    | none => none
    | some _ => some env.natCreateOk

/-- Environment of `create_gke_cluster`: whether `create_cluster` itself
succeeds (line 273), the status stream of the creation operation, whether
the post-creation `get_cluster` succeeds (line 310), and the NAT
environment. -/
structure CreateEnv where
  createSubmitOk : Bool
  clusterOpStream : Nat → CtrStatus
  getClusterOk : Bool
  natEnv : NatEnv

/-- Observable outcome of one `create_gke_cluster` invocation: the returned
Boolean, whether the cluster-creation operation completed successfully, and
the result of `create_cloud_nat` (`none` when it was never invoked). -/
structure CreateOutcome where
  result : Bool
  clusterCreated : Bool
  natResult : Option Bool
deriving DecidableEq

/-- `create_gke_cluster` (lines 148-388).  On `ABORTING` the function
returns `False` before `create_cloud_nat` is reached (lines 294-299); after
a successful creation it calls `create_cloud_nat` (line 336) and returns
`True` whether or not NAT setup succeeded (lines 337-339, 384). -/
def create_gke_cluster (clusterName : String) (enableSpot : Bool)
    (env : CreateEnv) (fuel : Nat) : Option CreateOutcome :=
  if !env.createSubmitOk then some ⟨false, false, none⟩
  else
    match createClusterWait env.clusterOpStream fuel with
    | none => none
    | some (false, _) => some ⟨false, false, none⟩
    | some (true, _) =>
      if !env.getClusterOk then some ⟨false, true, none⟩
      else
        match create_cloud_nat env.natEnv fuel with
        | none => none
        | some b => some ⟨true, true, some b⟩

/-- Events of one `delete_cluster` run, in execution order. -/
inductive DelEvent
  | submitClusterDelete (clusterName : String)
  | clusterDeleted
  | clusterDeleteFailed
  | submitDiskDelete (disk : String)
  | diskDeleted (disk : String)
  | diskDeleteFailed (disk : String)
  | diskListFailed
  | submitNatPatch (routerName : String)
  | natRemoved
  | submitRouterDelete (routerName : String)
  | routerDeleted
  | natCleanupFailed
deriving DecidableEq

/-- Environment of `delete_cluster`: the observed status of the target
cluster (note: the source never queries it before submitting deletion), the
status stream of the deletion operation, whether `disks_client.list`
succeeds (line 430), the listed disk names, per-disk submission success
(line 447) and status streams, whether `routers_client.get` succeeds (line
480), whether `routers_client.patch` succeeds (line 488) and the NAT-removal
stream, whether `routers_client.delete` succeeds (line 509) and the
router-deletion stream. -/
structure DeleteEnv where
  clusterStatus : ClusterStatus
  clusterOpStream : Nat → CtrStatus
  listDisksOk : Bool
  disks : List String
  diskSubmitOk : String → Bool
  diskOpStream : String → Nat → CompStatus
  routerGetOk : Bool
  natPatchOk : Bool
  natOpStream : Nat → CompStatus
  routerDeleteOk : Bool
  routerOpStream : Nat → CompStatus

/-- The per-disk deletion loop of `delete_cluster` (lines 444-465): each
selected disk is submitted for deletion and polled to completion before the
next disk is touched; a failing submission is caught by the per-disk
handler and the loop moves on. -/
def deleteDisksLoop (env : DeleteEnv) (fuel : Nat) : List String → Option (List DelEvent)
  | [] => some []
  | d :: rest =>
    if env.diskSubmitOk d then
      match diskDeleteWait (env.diskOpStream d) fuel with
      | none => none
      | some _ =>
        (deleteDisksLoop env fuel rest).map
          (fun tr => DelEvent.submitDiskDelete d :: DelEvent.diskDeleted d :: tr)
    else
      (deleteDisksLoop env fuel rest).map (fun tr => DelEvent.diskDeleteFailed d :: tr)

/-- The NAT/router cleanup block of `delete_cluster` (lines 473-531).  The
router lookup, the NAT-removing patch and the router deletion all live in
one `try` block, so any raised exception jumps to the shared handler at
line 528 and skips the rest of the block. -/
def natRouterCleanup (env : DeleteEnv) (routerName : String) (fuel : Nat) :
    Option (List DelEvent) :=
  if env.routerGetOk then
    if env.natPatchOk then
      match natRemoveWait env.natOpStream fuel with
      | none => none
      | some _ =>
        if env.routerDeleteOk then
          match routerDeleteWait env.routerOpStream fuel with
          | none => none
          | some _ =>
            some [DelEvent.submitNatPatch routerName, DelEvent.natRemoved,
                  DelEvent.submitRouterDelete routerName, DelEvent.routerDeleted]
        else
          some [DelEvent.submitNatPatch routerName, DelEvent.natRemoved,
                DelEvent.natCleanupFailed]
    else some [DelEvent.natCleanupFailed]
  else some [DelEvent.natCleanupFailed]

/-- `delete_cluster` (lines 390-546): submit the cluster deletion (with no
precondition on the observed cluster status), poll it to completion, then
clean up matching disks, then the NAT config and the router.  Cleanup
failures are caught and the function still returns `True`; only a failed
cluster deletion (or an exception before the cleanup blocks) yields
`False`. -/
def delete_cluster (clusterName : String) (env : DeleteEnv) (fuel : Nat) :
    Option (Bool × List DelEvent) :=
  match deleteClusterWait env.clusterOpStream fuel with
  | none => none
  | some (false, _) =>
    some (false, [DelEvent.submitClusterDelete clusterName, DelEvent.clusterDeleteFailed])
  | some (true, _) =>
    match (if env.listDisksOk then
            deleteDisksLoop env fuel (env.disks.filter (fun d => diskSelected clusterName d))
           else some [DelEvent.diskListFailed]) with
    | none => none
    | some dtr =>
      match natRouterCleanup env (clusterName ++ "-nat-router") fuel with
      | none => none
      | some ntr =>
        some (true, DelEvent.submitClusterDelete clusterName ::
                    DelEvent.clusterDeleted :: (dtr ++ ntr))

/-- `list_clusters` (lines 662-681): a pure read that prints one summary
line per cluster (name and summed node count).  In the source the function
returns `None` on every path; the summaries modelled here are the printed
content.  A raised listing exception (modelled by `none`) is caught and
swallowed (lines 680-681). -/
def list_clusters (resp : Option (List Cluster)) : List (String × Nat) :=
  match resp with
  | none => []
  | some cs => cs.map (fun c => (c.name, (c.nodePools.map (fun q => q.initialNodeCount)).sum))

/-- The four CLI actions of `main` (lines 688-692). -/
inductive CliAction
  | create
  | delete
  | scale
  | list
deriving DecidableEq

/-- The collaborating environments of one `main` invocation. -/
structure MainEnv where
  createEnv : CreateEnv
  deleteEnv : DeleteEnv
  scaleCluster : Option Cluster
  scaleStreams : String → Nat → CtrStatus
  listResp : Option (List Cluster)

/-- `main` (lines 683-734): run the selected intent and exit with code 1
when it returned `False` (lines 720-734).  `list_clusters` is called for
its printed output only; its outcome is never inspected and the `list`
action always exits with code 0 (lines 729-730). -/
def mainExitCode (action : CliAction) (name : String) (noSpot : Bool) (nodes : Nat)
    (pool : Option String) (env : MainEnv) (fuel : Nat) : Option Nat :=
  match action with
  | CliAction.create =>
    (create_gke_cluster name (!noSpot) env.createEnv fuel).map
      (fun o => if o.result then 0 else 1)
  | CliAction.delete =>
    (delete_cluster name env.deleteEnv fuel).map (fun p => if p.1 then 0 else 1)
  | CliAction.scale =>
    (scale_cluster env.scaleCluster nodes pool env.scaleStreams fuel).map
      (fun o => if o.result then 0 else 1)
  | CliAction.list =>
    let _ := list_clusters env.listResp
    some 0

/-- A status stream that is `RUNNING` for the first `k` polls and `DONE`
afterwards (compute operations). -/
def compDelay (k : Nat) : Nat → CompStatus :=
  fun r => if r < k then CompStatus.running else CompStatus.done

/-- A status stream that is `RUNNING` for the first `k` polls and `DONE`
afterwards (container operations). -/
def ctrDelay (k : Nat) : Nat → CtrStatus :=
  fun r => if r < k then CtrStatus.running else CtrStatus.done

/-- A NAT environment in which nothing exists yet and every step succeeds
immediately. -/
def okNatEnv : NatEnv :=
  ⟨false, false, true, fun _ => CompStatus.done, true⟩

/-- A create environment in which every step succeeds immediately. -/
def okCreateEnv : CreateEnv :=
  ⟨true, fun _ => CtrStatus.done, true, okNatEnv⟩

/-- A delete environment for a cluster that is observed `STOPPING` (not
running): the deletion operation itself completes at the first poll, no
disks exist, and the router lookup fails. -/
def cexEnv2 : DeleteEnv :=
  ⟨ClusterStatus.stopping, fun _ => CtrStatus.done, true, [], fun _ => true,
   fun _ _ => CompStatus.done, false, true, fun _ => CompStatus.done, true,
   fun _ => CompStatus.done⟩

/-- The trace produced by `delete_cluster "c1" cexEnv2 1`. -/
def cexTrace2 : List DelEvent :=
  [DelEvent.submitClusterDelete "c1", DelEvent.clusterDeleted, DelEvent.natCleanupFailed]

/-- A delete environment in which the cluster deletion succeeds, no disks
match, the router exists, but the NAT-removing patch raises. -/
def cexEnv3 : DeleteEnv :=
  ⟨ClusterStatus.running, fun _ => CtrStatus.done, true, [], fun _ => true,
   fun _ _ => CompStatus.done, true, false, fun _ => CompStatus.done, true,
   fun _ => CompStatus.done⟩

/-- The trace produced by `delete_cluster "c1" cexEnv3 1`: the NAT stage
failed and no router deletion was ever submitted. -/
def cexTrace3 : List DelEvent :=
  [DelEvent.submitClusterDelete "c1", DelEvent.clusterDeleted, DelEvent.natCleanupFailed]

/-- A delete environment whose cluster-deletion operation reports
`ABORTING` at the first poll. -/
def cexEnv3a : DeleteEnv :=
  ⟨ClusterStatus.running, fun _ => CtrStatus.aborting, true, ["gke-c1-pvc-a"],
   fun _ => true, fun _ _ => CompStatus.done, true, true, fun _ => CompStatus.done,
   true, fun _ => CompStatus.done⟩

/-- A delete environment with two matching disks, the first of which fails
to submit, while the NAT and router cleanup succeed. -/
def wDelEnv : DeleteEnv :=
  ⟨ClusterStatus.running, fun _ => CtrStatus.done, true,
   ["gke-c1-pvc-a", "gke-c1-pvc-b"], fun d => d == "gke-c1-pvc-b",
   fun _ _ => CompStatus.done, true, true, fun _ => CompStatus.done, true,
   fun _ => CompStatus.done⟩

/-- The trace produced by `delete_cluster "c1" wDelEnv 1`. -/
def wDelTrace : List DelEvent :=
  [DelEvent.submitClusterDelete "c1", DelEvent.clusterDeleted,
   DelEvent.diskDeleteFailed "gke-c1-pvc-a",
   DelEvent.submitDiskDelete "gke-c1-pvc-b", DelEvent.diskDeleted "gke-c1-pvc-b",
   DelEvent.submitNatPatch "c1-nat-router", DelEvent.natRemoved,
   DelEvent.submitRouterDelete "c1-nat-router", DelEvent.routerDeleted]

/-- A delete environment with two matching disks that both delete
successfully (each after one poll), with no router present. -/
def cexEnv9 : DeleteEnv :=
  ⟨ClusterStatus.running, fun _ => CtrStatus.done, true,
   ["gke-c1-pvc-a", "gke-c1-pvc-b"], fun _ => true, fun _ _ => CompStatus.done,
   false, true, fun _ => CompStatus.done, true, fun _ => CompStatus.done⟩

/-- The trace produced by `delete_cluster "c1" cexEnv9 1`: the second
disk's deletion is submitted only after the first disk's deletion has
resolved. -/
def cexTrace9 : List DelEvent :=
  [DelEvent.submitClusterDelete "c1", DelEvent.clusterDeleted,
   DelEvent.submitDiskDelete "gke-c1-pvc-a", DelEvent.diskDeleted "gke-c1-pvc-a",
   DelEvent.submitDiskDelete "gke-c1-pvc-b", DelEvent.diskDeleted "gke-c1-pvc-b",
   DelEvent.natCleanupFailed]

/-- A cluster-deletion status stream that is `RUNNING` at the first poll
and `DONE` at the second. -/
def cexStream6 : Nat → CtrStatus :=
  fun r => if r = 0 then CtrStatus.running else CtrStatus.done

/-- A main environment whose listing call raises (`listResp = none`);
everything else is inert. -/
def cexEnv8 : MainEnv :=
  ⟨okCreateEnv, cexEnv2, none, fun _ _ => CtrStatus.done, none⟩

/-- The two-pool cluster of spec Scenario A, observed `RUNNING`. -/
def wCluster : Cluster :=
  ⟨"c1", ClusterStatus.running, [⟨"default-pool", 3⟩, ⟨"ml-pool", 0⟩]⟩

/-- Scale-operation status streams: the default pool's operation completes
at the third poll, the ML pool's operation aborts at the first poll. -/
def wStreams : String → Nat → CtrStatus :=
  fun n r =>
    if n == "default-pool" then (if r < 2 then CtrStatus.running else CtrStatus.done)
    else CtrStatus.aborting

/-- The outcome of `scale_cluster (some wCluster) 5 none wStreams 5`. -/
def wOutcome : ScaleOutcome :=
  ⟨false, [("default-pool", 5), ("ml-pool", 5)],
   [("default-pool", some true), ("ml-pool", some false)], 20⟩

/-- An all-`DONE` scale stream: every operation resolves at its first
poll. -/
def wFastStreams : String → Nat → CtrStatus :=
  fun _ _ => CtrStatus.done

/-- The same cluster as `wCluster` but observed `PROVISIONING`. -/
def wNotRunning : Cluster :=
  ⟨"c1", ClusterStatus.provisioning, [⟨"default-pool", 3⟩]⟩

/-- A create environment in which the cluster is created successfully but
the `gcloud` NAT-creation call fails (spec Scenario D). -/
def wCreateEnv : CreateEnv :=
  ⟨true, fun _ => CtrStatus.done, true,
   ⟨false, false, true, fun _ => CompStatus.done, false⟩⟩

/-- The outcome of `create_gke_cluster "c1" true wCreateEnv 1`: a retained
cluster with a recorded NAT failure. -/
def wCreateOutcome : CreateOutcome :=
  ⟨true, true, some false⟩

/-- The outcome of `scale_cluster (some wCluster) 5 none wFastStreams 1`. -/
def wOutcomeFast : ScaleOutcome :=
  ⟨true, [("default-pool", 5), ("ml-pool", 5)],
   [("default-pool", some true), ("ml-pool", some true)], 0⟩

/-- The trace of `deleteDisksLoop wDelEnv 1` on both disks of `wDelEnv`. -/
def wDiskTrace : List DelEvent :=
  [DelEvent.diskDeleteFailed "gke-c1-pvc-a",
   DelEvent.submitDiskDelete "gke-c1-pvc-b", DelEvent.diskDeleted "gke-c1-pvc-b"]

/-- A main environment in which every intent's collaborators behave. -/
def wMainEnv : MainEnv :=
  ⟨okCreateEnv, wDelEnv, some wCluster, wStreams, some []⟩

theorem compWait_succ (s : Nat → CompStatus) (i r fuel : Nat) :
    computeOpWait s i r (fuel + 1) =
      if s r = CompStatus.done then some 0
      else (computeOpWait s i (r + 1) fuel).map (fun t => t + i) := rfl

theorem ctrWait_succ (s : Nat → CtrStatus) (i r fuel : Nat) :
    containerOpWait s i r (fuel + 1) =
      match s r with
      | CtrStatus.done => some (true, 0)
      | CtrStatus.aborting => some (false, 0)
      | _ => (containerOpWait s i (r + 1) fuel).map (fun p => (p.1, p.2 + i)) := rfl

theorem compWait_some_terminal (s : Nat → CompStatus) (i : Nat) :
    ∀ fuel r t, computeOpWait s i r fuel = some t → ∃ k, s (r + k) = CompStatus.done := by
  intro fuel
  induction fuel with
  | zero => intro r t h; simp [computeOpWait] at h
  | succ n ih =>
    intro r t h
    by_cases hd : s r = CompStatus.done
    · exact ⟨0, hd⟩
    · simp only [computeOpWait, if_neg hd, Option.map_eq_some'] at h
      obtain ⟨a, ha, -⟩ := h
      obtain ⟨k, hk⟩ := ih (r + 1) a ha
      exact ⟨k + 1, by rw [show r + (k + 1) = r + 1 + k from by omega]; exact hk⟩

theorem compWait_terminates (s : Nat → CompStatus) (i : Nat) :
    ∀ k r, s (r + k) = CompStatus.done → ∃ t, computeOpWait s i r (k + 1) = some t := by
  intro k
  induction k with
  | zero =>
    intro r h
    rw [Nat.add_zero] at h
    exact ⟨0, by simp [computeOpWait, h]⟩
  | succ n ih =>
    intro r h
    by_cases hd : s r = CompStatus.done
    · exact ⟨0, by simp [computeOpWait, hd]⟩
    · obtain ⟨t, ht⟩ := ih (r + 1) (by rw [show r + 1 + n = r + (n + 1) from by omega]; exact h)
      refine ⟨t + i, ?_⟩
      rw [compWait_succ, if_neg hd, ht]
      rfl

theorem compWait_delay (s : Nat → CompStatus) (i : Nat) :
    ∀ k r, (∀ j, j < k → s (r + j) ≠ CompStatus.done) → s (r + k) = CompStatus.done →
    computeOpWait s i r (k + 1) = some (i * k) := by
  intro k
  induction k with
  | zero =>
    intro r _ h
    rw [Nat.add_zero] at h
    simp [computeOpWait, h]
  | succ n ih =>
    intro r hne h
    have h0 : s r ≠ CompStatus.done := by
      have := hne 0 (Nat.succ_pos n)
      rwa [Nat.add_zero] at this
    have hrec := ih (r + 1)
      (fun j hj => by
        have := hne (j + 1) (by omega)
        rwa [show r + (j + 1) = r + 1 + j from by omega] at this)
      (by rwa [show r + (n + 1) = r + 1 + n from by omega] at h)
    rw [compWait_succ, if_neg h0, hrec]
    simp [Nat.mul_succ]

theorem compWait_const_running (i : Nat) :
    ∀ fuel r, computeOpWait (fun _ => CompStatus.running) i r fuel = none := by
  intro fuel
  induction fuel with
  | zero => intro r; simp [computeOpWait]
  | succ n ih => intro r; simp [computeOpWait, ih]

theorem ctrWait_some_terminal (s : Nat → CtrStatus) (i : Nat) :
    ∀ fuel r p, containerOpWait s i r fuel = some p →
    ∃ k, s (r + k) = CtrStatus.done ∨ s (r + k) = CtrStatus.aborting := by
  intro fuel
  induction fuel with
  | zero => intro r p h; simp [containerOpWait] at h
  | succ n ih =>
    intro r p h
    cases hs : s r with
    | done => exact ⟨0, Or.inl hs⟩
    | aborting => exact ⟨0, Or.inr hs⟩
    | unspecified =>
      simp only [containerOpWait, hs, Option.map_eq_some'] at h
      obtain ⟨a, ha, -⟩ := h
      obtain ⟨k, hk⟩ := ih (r + 1) a ha
      exact ⟨k + 1, by rw [show r + (k + 1) = r + 1 + k from by omega]; exact hk⟩
    | pending =>
      simp only [containerOpWait, hs, Option.map_eq_some'] at h
      obtain ⟨a, ha, -⟩ := h
      obtain ⟨k, hk⟩ := ih (r + 1) a ha
      exact ⟨k + 1, by rw [show r + (k + 1) = r + 1 + k from by omega]; exact hk⟩
    | running =>
      simp only [containerOpWait, hs, Option.map_eq_some'] at h
      obtain ⟨a, ha, -⟩ := h
      obtain ⟨k, hk⟩ := ih (r + 1) a ha
      exact ⟨k + 1, by rw [show r + (k + 1) = r + 1 + k from by omega]; exact hk⟩

theorem ctrWait_terminates (s : Nat → CtrStatus) (i : Nat) :
    ∀ k r, (s (r + k) = CtrStatus.done ∨ s (r + k) = CtrStatus.aborting) →
    ∃ p, containerOpWait s i r (k + 1) = some p := by
  intro k
  induction k with
  | zero =>
    intro r h
    rw [Nat.add_zero] at h
    rcases h with h | h
    · exact ⟨(true, 0), by simp [containerOpWait, h]⟩
    · exact ⟨(false, 0), by simp [containerOpWait, h]⟩
  | succ n ih =>
    intro r h
    cases hs : s r with
    | done => exact ⟨(true, 0), by simp [containerOpWait, hs]⟩
    | aborting => exact ⟨(false, 0), by simp [containerOpWait, hs]⟩
    | unspecified =>
      obtain ⟨p, hp⟩ := ih (r + 1) (by rw [show r + 1 + n = r + (n + 1) from by omega]; exact h)
      exact ⟨(p.1, p.2 + i), by rw [ctrWait_succ, hs]; simp [hp]⟩
    | pending =>
      obtain ⟨p, hp⟩ := ih (r + 1) (by rw [show r + 1 + n = r + (n + 1) from by omega]; exact h)
      exact ⟨(p.1, p.2 + i), by rw [ctrWait_succ, hs]; simp [hp]⟩
    | running =>
      obtain ⟨p, hp⟩ := ih (r + 1) (by rw [show r + 1 + n = r + (n + 1) from by omega]; exact h)
      exact ⟨(p.1, p.2 + i), by rw [ctrWait_succ, hs]; simp [hp]⟩

theorem ctrWait_delay (s : Nat → CtrStatus) (i : Nat) :
    ∀ k r, (∀ j, j < k → s (r + j) = CtrStatus.running) → s (r + k) = CtrStatus.done →
    containerOpWait s i r (k + 1) = some (true, i * k) := by
  intro k
  induction k with
  | zero =>
    intro r _ h
    rw [Nat.add_zero] at h
    simp [containerOpWait, h]
  | succ n ih =>
    intro r hrun h
    have h0 : s r = CtrStatus.running := by
      have := hrun 0 (Nat.succ_pos n)
      rwa [Nat.add_zero] at this
    have hrec := ih (r + 1)
      (fun j hj => by
        have := hrun (j + 1) (by omega)
        rwa [show r + (j + 1) = r + 1 + j from by omega] at this)
      (by rwa [show r + (n + 1) = r + 1 + n from by omega] at h)
    rw [ctrWait_succ, h0]
    simp [hrec, Nat.mul_succ]

theorem compWait_iff (s : Nat → CompStatus) (i : Nat) :
    (∃ fuel t, computeOpWait s i 0 fuel = some t) ↔ ∃ k, s k = CompStatus.done := by
  constructor
  · rintro ⟨fuel, t, h⟩
    obtain ⟨k, hk⟩ := compWait_some_terminal s i fuel 0 t h
    exact ⟨k, by simpa using hk⟩
  · rintro ⟨k, hk⟩
    obtain ⟨t, ht⟩ := compWait_terminates s i k 0 (by simpa using hk)
    exact ⟨k + 1, t, ht⟩

theorem ctrWait_iff (s : Nat → CtrStatus) (i : Nat) :
    (∃ fuel p, containerOpWait s i 0 fuel = some p) ↔
    ∃ k, s k = CtrStatus.done ∨ s k = CtrStatus.aborting := by
  constructor
  · rintro ⟨fuel, p, h⟩
    obtain ⟨k, hk⟩ := ctrWait_some_terminal s i fuel 0 p h
    exact ⟨k, by simpa using hk⟩
  · rintro ⟨k, hk⟩
    obtain ⟨p, hp⟩ := ctrWait_terminates s i k 0 (by simpa using hk)
    exact ⟨k + 1, p, hp⟩

theorem drainLoop_succ (streams : String → Nat → CtrStatus) (r fuel : Nat)
    (st : List (String × Option Bool)) :
    drainLoop streams r (fuel + 1) st =
      if allDone st then some (st, 0)
      else
        if allDone (pollRound streams r st) then some (pollRound streams r st, 0)
        else (drainLoop streams (r + 1) fuel (pollRound streams r st)).map
          (fun p => (p.1, p.2 + 10)) := by
  rw [drainLoop]

theorem drainLoop_zero (streams : String → Nat → CtrStatus) (r : Nat)
    (st : List (String × Option Bool)) :
    drainLoop streams r 0 st = if allDone st then some (st, 0) else none := by
  rw [drainLoop]

theorem drain_allDone (streams : String → Nat → CtrStatus) :
    ∀ fuel r st st2 t, drainLoop streams r fuel st = some (st2, t) →
    allDone st2 = true := by
  intro fuel
  induction fuel with
  | zero =>
    intro r st st2 t h
    rw [drainLoop_zero] at h
    by_cases hd : allDone st = true
    · rw [if_pos hd] at h
      simp only [Option.some.injEq, Prod.mk.injEq] at h
      rw [← h.1]
      exact hd
    · rw [if_neg hd] at h
      exact absurd h (by simp)
  | succ n ih =>
    intro r st st2 t h
    rw [drainLoop_succ] at h
    by_cases hd : allDone st = true
    · rw [if_pos hd] at h
      simp only [Option.some.injEq, Prod.mk.injEq] at h
      rw [← h.1]
      exact hd
    · rw [if_neg hd] at h
      by_cases hd2 : allDone (pollRound streams r st) = true
      · rw [if_pos hd2] at h
        simp only [Option.some.injEq, Prod.mk.injEq] at h
        rw [← h.1]
        exact hd2
      · rw [if_neg hd2] at h
        simp only [Option.map_eq_some'] at h
        obtain ⟨⟨pl, pt⟩, hp, h2⟩ := h
        simp only [Prod.mk.injEq] at h2
        rw [← h2.1]
        exact ih (r + 1) (pollRound streams r st) pl pt hp

theorem drain_single_delay (streams : String → Nat → CtrStatus) (n : String) :
    ∀ k r, (∀ j, j < k → streams n (r + j) = CtrStatus.running) →
    streams n (r + k) = CtrStatus.done →
    drainLoop streams r (k + 1) [(n, none)] = some ([(n, some true)], 10 * k) := by
  intro k
  induction k with
  | zero =>
    intro r _ h
    rw [Nat.add_zero] at h
    rw [drainLoop_succ]
    simp [allDone, pollRound, pollOnce, h]
  | succ m ih =>
    intro r hrun h
    have h0 : streams n r = CtrStatus.running := by
      have := hrun 0 (Nat.succ_pos m)
      rwa [Nat.add_zero] at this
    have hrec := ih (r + 1)
      (fun j hj => by
        have := hrun (j + 1) (by omega)
        rwa [show r + (j + 1) = r + 1 + j from by omega] at this)
      (by rwa [show r + (m + 1) = r + 1 + m from by omega] at h)
    rw [drainLoop_succ]
    have hpoll : pollRound streams r [(n, none)] = [(n, none)] := by
      simp [pollRound, pollOnce, h0]
    rw [hpoll]
    simp only [allDone, List.all_cons, List.all_nil, Option.isSome_none, Bool.and_true,
      Bool.false_eq_true, if_false, hrec]
    simp [Nat.mul_succ]

theorem diskLoop_no_router (env : DeleteEnv) (fuel : Nat) :
    ∀ ds tr, deleteDisksLoop env fuel ds = some tr →
    ∀ r, DelEvent.submitRouterDelete r ∉ tr := by
  intro ds
  induction ds with
  | nil =>
    intro tr h r
    simp only [deleteDisksLoop, Option.some.injEq] at h
    rw [← h]
    simp
  | cons d rest ih =>
    intro tr h r
    simp only [deleteDisksLoop] at h
    by_cases hs : env.diskSubmitOk d = true
    · rw [if_pos hs] at h
      cases hw : diskDeleteWait (env.diskOpStream d) fuel with
      | none => rw [hw] at h; exact absurd h (by simp)
      | some t =>
        rw [hw] at h
        simp only [Option.map_eq_some'] at h
        obtain ⟨tr2, h2, h3⟩ := h
        rw [← h3]
        have := ih tr2 h2 r
        simp [this]
    · rw [if_neg hs] at h
      simp only [Option.map_eq_some'] at h
      obtain ⟨tr2, h2, h3⟩ := h
      rw [← h3]
      have := ih tr2 h2 r
      simp [this]

theorem runScale_aggregate (pools : List NodePool) (target : Nat)
    (streams : String → Nat → CtrStatus) (fuel : Nat) (o : ScaleOutcome)
    (h : runScaleGroup pools target streams fuel = some o) :
    o.result = o.members.all (fun m => m.2 == some true) ∧
    o.members.all (fun m => m.2.isSome) = true := by
  unfold runScaleGroup at h
  cases hd : drainLoop streams 0 fuel (pools.map fun q => (q.name, (none : Option Bool))) with
  | none => rw [hd] at h; exact absurd h (by simp)
  | some p =>
    obtain ⟨st, t⟩ := p
    rw [hd] at h
    simp only [Option.some.injEq] at h
    have hall := drain_allDone streams fuel 0 _ st t hd
    rw [← h]
    exact ⟨rfl, hall⟩

theorem runScale_submitted (pools : List NodePool) (target : Nat)
    (streams : String → Nat → CtrStatus) (fuel : Nat) (o : ScaleOutcome)
    (h : runScaleGroup pools target streams fuel = some o) :
    o.submitted = pools.map (fun q => (q.name, target)) := by
  unfold runScaleGroup at h
  cases hd : drainLoop streams 0 fuel (pools.map fun q => (q.name, (none : Option Bool))) with
  | none => rw [hd] at h; exact absurd h (by simp)
  | some p =>
    obtain ⟨st, t⟩ := p
    rw [hd] at h
    simp only [Option.some.injEq] at h
    rw [← h]

theorem str_data_append (s t : String) : (s ++ t).data = s.data ++ t.data := rfl

theorem isPrefixOf_occursIn (c : List Char) :
    ∀ h, c.isPrefixOf h = true → occursIn c h = true := by
  intro h hp
  cases h with
  | nil => simpa [occursIn] using hp
  | cons a t => simp [occursIn, hp]

theorem append_isPrefixOf_occursIn :
    ∀ (g c h : List Char), (g ++ c).isPrefixOf h = true → occursIn c h = true := by
  intro g
  induction g with
  | nil =>
    intro c h hp
    exact isPrefixOf_occursIn c h (by simpa using hp)
  | cons a g ih =>
    intro c h hp
    cases h with
    | nil => simp [List.isPrefixOf] at hp
    | cons b t =>
      simp only [List.cons_append, List.isPrefixOf, Bool.and_eq_true, beq_iff_eq] at hp
      have := ih c t hp.2
      simp [occursIn, this]

theorem occursIn_append_left :
    ∀ (g c h : List Char), occursIn (g ++ c) h = true → occursIn c h = true := by
  intro g c h
  induction h with
  | nil =>
    intro hp
    exact append_isPrefixOf_occursIn g c [] (by simpa [occursIn] using hp)
  | cons a t ih =>
    intro hp
    have hp2 : (g ++ c).isPrefixOf (a :: t) = true ∨ occursIn (g ++ c) t = true := by
      simpa [occursIn] using hp
    rcases hp2 with h1 | h2
    · exact append_isPrefixOf_occursIn g c (a :: t) h1
    · have := ih h2
      simp [occursIn, this]

/-- C1 (counterexample): the claim says every poll loop reaches a terminal
outcome after finitely many polls because a bounded retry budget escalates
persistent non-terminal statuses to failure.  The router-creation poll loop
of `create_cloud_nat` (lines 88-101), fed an operation whose status query
keeps returning the non-terminal `RUNNING`, never exits, for any number of
iterations: there is no retry budget. -/
theorem C1_counterexample :
    ¬ ∃ fuel t, routerCreateWait (fun _ => CompStatus.running) fuel = some t := by
  rintro ⟨fuel, t, h⟩
  rw [routerCreateWait, compWait_const_running] at h
  exact Option.noConfusion h

/-- C1 (amended): a poll loop of the source reaches a terminal outcome
within some finite number of polls if and only if its status stream
eventually reports a terminal status (`DONE` for the compute-operation
loops; `DONE` or `ABORTING` for the container-operation loops).  There is
no bounded retry budget: a stream that never reports a terminal status is
polled forever. -/
theorem C1_poll_termination (s : Nat → CompStatus) (c : Nat → CtrStatus) :
    ((∃ fuel t, routerCreateWait s fuel = some t) ↔ ∃ k, s k = CompStatus.done) ∧
    ((∃ fuel t, diskDeleteWait s fuel = some t) ↔ ∃ k, s k = CompStatus.done) ∧
    ((∃ fuel t, natRemoveWait s fuel = some t) ↔ ∃ k, s k = CompStatus.done) ∧
    ((∃ fuel t, routerDeleteWait s fuel = some t) ↔ ∃ k, s k = CompStatus.done) ∧
    ((∃ fuel p, createClusterWait c fuel = some p) ↔
      ∃ k, c k = CtrStatus.done ∨ c k = CtrStatus.aborting) ∧
    ((∃ fuel p, deleteClusterWait c fuel = some p) ↔
      ∃ k, c k = CtrStatus.done ∨ c k = CtrStatus.aborting) :=
  ⟨compWait_iff s 5, compWait_iff s 3, compWait_iff s 3, compWait_iff s 3,
   ctrWait_iff c 30, ctrWait_iff c 10⟩

/-- C6 (counterexample): the claim says cluster-level operations (create
and delete) are polled every 30 time-units, but the cluster-deletion loop
(line 425) sleeps 10 time-units per poll: an operation that is `RUNNING` at
the first poll and `DONE` at the second accumulates 10 time-units of sleep,
not 30. -/
theorem C6_counterexample :
    deleteClusterWait cexStream6 2 = some (true, 10) ∧ (10 : Nat) ≠ 30 :=
  ⟨by decide, by decide⟩

/-- C6 (amended): polling intervals are fixed constants with no backoff,
but they differ from the claim on cluster deletion: cluster creation polls
every 30 time-units, cluster deletion every 10, node-pool scaling every 10,
the disk / NAT / router cleanup loops every 3, and router creation every 5.
A stream that stays non-terminal for `k` polls accumulates exactly
`interval * k` time-units of sleep. -/
theorem C6_poll_intervals (k : Nat) :
    createClusterWait (ctrDelay k) (k + 1) = some (true, 30 * k) ∧
    deleteClusterWait (ctrDelay k) (k + 1) = some (true, 10 * k) ∧
    routerCreateWait (compDelay k) (k + 1) = some (5 * k) ∧
    diskDeleteWait (compDelay k) (k + 1) = some (3 * k) ∧
    natRemoveWait (compDelay k) (k + 1) = some (3 * k) ∧
    routerDeleteWait (compDelay k) (k + 1) = some (3 * k) ∧
    drainLoop (fun _ => ctrDelay k) 0 (k + 1) [("default-pool", none)] =
      some ([("default-pool", some true)], 10 * k) := by
  have hcomp : ∀ j, j < k → compDelay k (0 + j) ≠ CompStatus.done := by
    intro j hj
    simp [compDelay, Nat.zero_add, hj]
  have hcompk : compDelay k (0 + k) = CompStatus.done := by
    simp [compDelay]
  have hctr : ∀ j, j < k → ctrDelay k (0 + j) = CtrStatus.running := by
    intro j hj
    simp [ctrDelay, Nat.zero_add, hj]
  have hctrk : ctrDelay k (0 + k) = CtrStatus.done := by
    simp [ctrDelay]
  exact ⟨ctrWait_delay (ctrDelay k) 30 k 0 hctr hctrk,
         ctrWait_delay (ctrDelay k) 10 k 0 hctr hctrk,
         compWait_delay (compDelay k) 5 k 0 hcomp hcompk,
         compWait_delay (compDelay k) 3 k 0 hcomp hcompk,
         compWait_delay (compDelay k) 3 k 0 hcomp hcompk,
         compWait_delay (compDelay k) 3 k 0 hcomp hcompk,
         drain_single_delay (fun _ => ctrDelay k) "default-pool" k 0 hctr hctrk⟩

/-- C10 (confirmed): a disk is selected for deletion in `delete_cluster`
exactly when the cluster name occurs as a substring of the disk name — the
extra check for the pattern `gke-` followed by the cluster name is
redundant, since any name containing that pattern also contains the cluster
name.  Consequently a disk of the unrelated cluster `c10` is selected when
deleting cluster `c1`. -/
theorem C10_disk_selection :
    (∀ clusterName diskName : String,
      diskSelected clusterName diskName = strIn clusterName diskName) ∧
    diskSelected "c1" "gke-c10-pvc-x" = true := by
  constructor
  · intro c d
    have key : strIn ("gke-" ++ c) d = true → strIn c d = true := by
      intro h
      unfold strIn at h ⊢
      rw [str_data_append] at h
      exact occursIn_append_left ("gke-".data) c.data d.data h
    cases hx : strIn ("gke-" ++ c) d
    · simp [diskSelected, hx]
    · simp [diskSelected, hx, key hx]
  · decide

/-- C4 (confirmed): a Scale invocation naming a pool that matches no pool
of the target cluster returns the failure outcome with an empty list of
submitted mutations — lines 577-582 return `False` before any
`SetNodePoolSize` request is issued, so the call is never a vacuous
success. -/
theorem C4_scale_notfound (c : Cluster) (target : Nat) (p : String)
    (streams : String → Nat → CtrStatus) (fuel : Nat)
    (hrun : c.status = ClusterStatus.running)
    (hnone : c.nodePools.filter (fun q => q.name == p) = []) :
    scale_cluster (some c) target (some p) streams fuel = some ⟨false, [], [], 0⟩ := by
  simp [scale_cluster, hrun, hnone]

/-- C4 witness: scaling `wCluster` with the filter `ghost-pool`, which
matches none of its pools, fails with no submissions. -/
theorem C4_witness :
    scale_cluster (some wCluster) 0 (some "ghost-pool") wFastStreams 1 =
      some ⟨false, [], [], 0⟩ :=
  C4_scale_notfound wCluster 0 "ghost-pool" wFastStreams 1 (by decide) (by decide)

/-- C2 (amended): Scale fails fast with no submitted mutation whenever the
target cluster is not observed `RUNNING` (lines 571-573), but Delete
performs no such pre-condition check: every `delete_cluster` run that
returns begins by submitting the cluster-deletion mutation, regardless of
the observed cluster state (lines 397-403). -/
theorem C2_preconditions :
    (∀ (c : Cluster) (target : Nat) (pool : Option String)
        (streams : String → Nat → CtrStatus) (fuel : Nat),
        c.status ≠ ClusterStatus.running →
        scale_cluster (some c) target pool streams fuel = some ⟨false, [], [], 0⟩) ∧
    (∀ (name : String) (env : DeleteEnv) (fuel : Nat) (b : Bool) (tr : List DelEvent),
        delete_cluster name env fuel = some (b, tr) →
        tr.head? = some (DelEvent.submitClusterDelete name)) := by
  constructor
  · intro c target pool streams fuel hne
    simp [scale_cluster, hne]
  · intro name env fuel b tr h
    unfold delete_cluster at h
    cases hw : deleteClusterWait env.clusterOpStream fuel with
    | none => rw [hw] at h; exact absurd h (by simp)
    | some p =>
      obtain ⟨pb, pt⟩ := p
      rw [hw] at h
      cases pb with
      | false =>
        simp only [Option.some.injEq, Prod.mk.injEq] at h
        rw [← h.2]
        rfl
      | true =>
        cases hd : (if env.listDisksOk then
            deleteDisksLoop env fuel (env.disks.filter (fun d => diskSelected name d))
          else some [DelEvent.diskListFailed]) with
        | none => rw [hd] at h; exact absurd h (by simp)
        | some dtr =>
          rw [hd] at h
          cases hn : natRouterCleanup env (name ++ "-nat-router") fuel with
          | none => rw [hn] at h; exact absurd h (by simp)
          | some ntr =>
            rw [hn] at h
            simp only [Option.some.injEq, Prod.mk.injEq] at h
            rw [← h.2]
            rfl

/-- C2 counterexample: the claim says Delete submits no mutation when the
cluster is not observed in a running state; but `delete_cluster` on a
cluster observed `STOPPING` submits the deletion mutation and returns
success. -/
theorem C2_counterexample :
    delete_cluster "c1" cexEnv2 1 = some (true, cexTrace2) ∧
    cexEnv2.clusterStatus ≠ ClusterStatus.running ∧
    DelEvent.submitClusterDelete "c1" ∈ cexTrace2 :=
  ⟨by decide, by decide, by decide⟩

/-- C2 witness: the Scale half at a `PROVISIONING` cluster and the Delete
half at the concrete run from `cexEnv2`. -/
theorem C2_witness :
    scale_cluster (some wNotRunning) 3 none wFastStreams 1 = some ⟨false, [], [], 0⟩ ∧
    cexTrace2.head? = some (DelEvent.submitClusterDelete "c1") :=
  ⟨C2_preconditions.1 wNotRunning 3 none wFastStreams 1 (by decide),
   C2_preconditions.2 "c1" cexEnv2 1 true cexTrace2 (by decide)⟩

/-- C5 (confirmed): whenever a Scale invocation submits members (the
submission list is non-empty) and its polling loop exits, the returned
Boolean equals the conjunction of the member successes, and every member —
including siblings of a member that reached terminal failure — has been
polled to its own terminal outcome. -/
theorem C5_scale_aggregate (cluster : Option Cluster) (target : Nat)
    (pool : Option String) (streams : String → Nat → CtrStatus) (fuel : Nat)
    (o : ScaleOutcome)
    (h : scale_cluster cluster target pool streams fuel = some o)
    (hsub : o.submitted ≠ []) :
    o.result = o.members.all (fun m => m.2 == some true) ∧
    o.members.all (fun m => m.2.isSome) = true := by
  cases cluster with
  | none =>
    simp only [scale_cluster, Option.some.injEq] at h
    rw [← h] at hsub
    simp at hsub
  | some c =>
    by_cases hs : c.status = ClusterStatus.running
    · simp only [scale_cluster] at h
      rw [if_pos hs] at h
      cases pool with
      | none => exact runScale_aggregate c.nodePools target streams fuel o h
      | some p =>
        by_cases he : (c.nodePools.filter (fun q => q.name == p)).isEmpty = true
        · simp only [he, if_true, Option.some.injEq] at h
          rw [← h] at hsub
          simp at hsub
        · simp only [he, if_false, Bool.false_eq_true] at h
          exact runScale_aggregate _ target streams fuel o h
    · simp only [scale_cluster] at h
      rw [if_neg hs] at h
      simp only [Option.some.injEq] at h
      rw [← h] at hsub
      simp at hsub

/-- C5 witness: Scenario-A-style run in which the ML pool's operation
aborts at the first poll while the default pool's succeeds only at the
third: both members end resolved and the aggregate is failure. -/
theorem C5_witness :
    scale_cluster (some wCluster) 5 none wStreams 5 = some wOutcome ∧
    wOutcome.submitted ≠ [] ∧
    (wOutcome.result = wOutcome.members.all (fun m => m.2 == some true) ∧
     wOutcome.members.all (fun m => m.2.isSome) = true) :=
  ⟨by decide, by decide,
   C5_scale_aggregate (some wCluster) 5 none wStreams 5 wOutcome (by decide) (by decide)⟩

/-- C7 (confirmed): in Create, a failed cluster-creation stage yields the
failure result with `create_cloud_nat` never invoked (no NAT/router
mutation), and a recorded NAT-stage failure can only occur after a
successful cluster creation, in which case the overall result is still the
success value — the cluster is retained and the NAT failure is reported in
the outcome. -/
theorem C7_create_policy (name : String) (spot : Bool) (env : CreateEnv)
    (fuel : Nat) (o : CreateOutcome)
    (h : create_gke_cluster name spot env fuel = some o) :
    (o.clusterCreated = false → o.result = false ∧ o.natResult = none) ∧
    (o.natResult = some false → o.result = true ∧ o.clusterCreated = true) := by
  unfold create_gke_cluster at h
  by_cases hc : env.createSubmitOk = true
  · rw [hc] at h
    simp only [Bool.not_true, Bool.false_eq_true, if_false] at h
    cases hw : createClusterWait env.clusterOpStream fuel with
    | none => rw [hw] at h; exact absurd h (by simp)
    | some p =>
      obtain ⟨pb, pt⟩ := p
      rw [hw] at h
      cases pb with
      | false =>
        simp only [Option.some.injEq] at h
        rw [← h]
        exact ⟨fun _ => ⟨rfl, rfl⟩, by simp⟩
      | true =>
        by_cases hg : env.getClusterOk = true
        · rw [hg] at h
          simp only [Bool.not_true, Bool.false_eq_true, if_false] at h
          cases hn : create_cloud_nat env.natEnv fuel with
          | none => rw [hn] at h; exact absurd h (by simp)
          | some b =>
            rw [hn] at h
            simp only [Option.some.injEq] at h
            rw [← h]
            exact ⟨by simp, fun _ => ⟨rfl, rfl⟩⟩
        · rw [Bool.not_eq_true] at hg
          rw [hg] at h
          simp only [Bool.not_false, if_true, Option.some.injEq] at h
          rw [← h]
          exact ⟨by simp, by simp⟩
  · rw [Bool.not_eq_true] at hc
    rw [hc] at h
    simp only [Bool.not_false, if_true, Option.some.injEq] at h
    rw [← h]
    exact ⟨fun _ => ⟨rfl, rfl⟩, by simp⟩

/-- C7 witness: Scenario D — the cluster is created, the `gcloud` NAT call
fails, and the outcome is the retained-cluster partial success with the NAT
failure recorded. -/
theorem C7_witness :
    create_gke_cluster "c1" true wCreateEnv 1 = some wCreateOutcome ∧
    ((wCreateOutcome.clusterCreated = false →
        wCreateOutcome.result = false ∧ wCreateOutcome.natResult = none) ∧
     (wCreateOutcome.natResult = some false →
        wCreateOutcome.result = true ∧ wCreateOutcome.clusterCreated = true)) :=
  ⟨by decide, C7_create_policy "c1" true wCreateEnv 1 wCreateOutcome (by decide)⟩

theorem natRouterCleanup_noPatch (env : DeleteEnv) (rn : String) (fuel : Nat)
    (h : env.natPatchOk = false) :
    natRouterCleanup env rn fuel = some [DelEvent.natCleanupFailed] := by
  by_cases hr : env.routerGetOk = true
  · simp [natRouterCleanup, hr, h]
  · rw [Bool.not_eq_true] at hr
    simp [natRouterCleanup, hr]

theorem delete_failure_shape (name : String) (env : DeleteEnv) (fuel : Nat)
    (tr : List DelEvent) (h : delete_cluster name env fuel = some (false, tr)) :
    tr = [DelEvent.submitClusterDelete name, DelEvent.clusterDeleteFailed] := by
  unfold delete_cluster at h
  cases hw : deleteClusterWait env.clusterOpStream fuel with
  | none => rw [hw] at h; exact absurd h (by simp)
  | some p =>
    obtain ⟨pb, pt⟩ := p
    rw [hw] at h
    cases pb with
    | false =>
      simp only [Option.some.injEq, Prod.mk.injEq] at h
      exact h.2.symm
    | true =>
      cases hd : (if env.listDisksOk then
          deleteDisksLoop env fuel (env.disks.filter (fun d => diskSelected name d))
        else some [DelEvent.diskListFailed]) with
      | none => rw [hd] at h; exact absurd h (by simp)
      | some dtr =>
        rw [hd] at h
        cases hn : natRouterCleanup env (name ++ "-nat-router") fuel with
        | none => rw [hn] at h; exact absurd h (by simp)
        | some ntr =>
          rw [hn] at h
          simp at h

theorem delete_success_shape (name : String) (env : DeleteEnv) (fuel : Nat)
    (tr : List DelEvent) (h : delete_cluster name env fuel = some (true, tr)) :
    ∃ dtr ntr,
      tr = DelEvent.submitClusterDelete name :: DelEvent.clusterDeleted :: (dtr ++ ntr) ∧
      natRouterCleanup env (name ++ "-nat-router") fuel = some ntr ∧
      (env.listDisksOk = true →
        deleteDisksLoop env fuel (env.disks.filter (fun d => diskSelected name d)) = some dtr) ∧
      (env.listDisksOk = false → dtr = [DelEvent.diskListFailed]) := by
  unfold delete_cluster at h
  cases hw : deleteClusterWait env.clusterOpStream fuel with
  | none => rw [hw] at h; exact absurd h (by simp)
  | some p =>
    obtain ⟨pb, pt⟩ := p
    rw [hw] at h
    cases pb with
    | false => simp at h
    | true =>
      cases hld : env.listDisksOk with
      | true =>
        simp only [hld, if_true] at h
        cases hdl : deleteDisksLoop env fuel (env.disks.filter (fun d => diskSelected name d)) with
        | none => rw [hdl] at h; exact absurd h (by simp)
        | some dtr =>
          rw [hdl] at h
          cases hn : natRouterCleanup env (name ++ "-nat-router") fuel with
          | none => rw [hn] at h; exact absurd h (by simp)
          | some ntr =>
            rw [hn] at h
            simp only [Option.some.injEq, Prod.mk.injEq] at h
            exact ⟨dtr, ntr, h.2.symm, rfl, fun _ => rfl, fun hfalse => absurd hfalse (by simp)⟩
      | false =>
        simp only [hld, Bool.false_eq_true, if_false] at h
        cases hn : natRouterCleanup env (name ++ "-nat-router") fuel with
        | none => rw [hn] at h; exact absurd h (by simp)
        | some ntr =>
          rw [hn] at h
          simp only [Option.some.injEq, Prod.mk.injEq] at h
          exact ⟨[DelEvent.diskListFailed], ntr, h.2.symm, rfl,
            fun htrue => absurd htrue (by simp), fun _ => rfl⟩

/-- C3 (amended): in Delete the stages run strictly sequentially in the
order cluster deletion, disk cleanup, NAT removal, router deletion, and a
failed cluster deletion halts the run with the failure result before any
cleanup mutation; disk-stage failures do not prevent the NAT/router block,
whose outcome is a function of the environment alone; but — contrary to the
claim — a failure inside the NAT-removal step skips router deletion
entirely, because both live in one shared exception scope (lines 478-531),
while the run still returns success. -/
theorem C3_delete_sequencing :
    (∀ (name : String) (env : DeleteEnv) (fuel t : Nat),
        deleteClusterWait env.clusterOpStream fuel = some (false, t) →
        delete_cluster name env fuel =
          some (false, [DelEvent.submitClusterDelete name, DelEvent.clusterDeleteFailed])) ∧
    (∀ (name : String) (env : DeleteEnv) (fuel : Nat) (tr : List DelEvent),
        delete_cluster name env fuel = some (true, tr) →
        ∃ dtr ntr,
          tr = DelEvent.submitClusterDelete name :: DelEvent.clusterDeleted :: (dtr ++ ntr) ∧
          natRouterCleanup env (name ++ "-nat-router") fuel = some ntr ∧
          (env.listDisksOk = true →
            deleteDisksLoop env fuel (env.disks.filter (fun d => diskSelected name d)) = some dtr) ∧
          (env.listDisksOk = false → dtr = [DelEvent.diskListFailed])) ∧
    (∀ (name : String) (env : DeleteEnv) (fuel : Nat) (b : Bool) (tr : List DelEvent) (r : String),
        delete_cluster name env fuel = some (b, tr) → env.natPatchOk = false →
        DelEvent.submitRouterDelete r ∉ tr) := by
  refine ⟨?_, ?_, ?_⟩
  · intro name env fuel t hw
    unfold delete_cluster
    rw [hw]
  · intro name env fuel tr h
    exact delete_success_shape name env fuel tr h
  · intro name env fuel b tr r h hnp
    cases b with
    | false =>
      rw [delete_failure_shape name env fuel tr h]
      simp
    | true =>
      obtain ⟨dtr, ntr, htr, hn, hdt, hdf⟩ := delete_success_shape name env fuel tr h
      rw [natRouterCleanup_noPatch env _ fuel hnp] at hn
      have hntr : ntr = [DelEvent.natCleanupFailed] := by
        injection hn with hh
        exact hh.symm
      cases hld : env.listDisksOk with
      | true =>
        have hno := diskLoop_no_router env fuel _ dtr (hdt hld) r
        rw [htr, hntr]
        simp [hno]
      | false =>
        rw [htr, hntr, hdf hld]
        simp

/-- C3 counterexample: the claim says a failed best-effort cleanup stage
does not prevent the following stages from being attempted; but when the
NAT-removing patch raises (`natPatchOk = false` in `cexEnv3`), the run ends
with no router-deletion submission in its trace. -/
theorem C3_counterexample :
    delete_cluster "c1" cexEnv3 1 = some (true, cexTrace3) ∧
    cexEnv3.natPatchOk = false ∧
    DelEvent.submitRouterDelete "c1-nat-router" ∉ cexTrace3 :=
  ⟨by decide, by decide, by decide⟩

/-- C3 witness: the halt-on-cluster-failure half at an `ABORTING` deletion
operation, the stage-decomposition half at a run with one failed disk and a
successful NAT/router cleanup, and the skipped-router half at the
`cexEnv3` run. -/
theorem C3_witness :
    delete_cluster "c1" cexEnv3a 1 =
      some (false, [DelEvent.submitClusterDelete "c1", DelEvent.clusterDeleteFailed]) ∧
    (∃ dtr ntr,
      wDelTrace = DelEvent.submitClusterDelete "c1" :: DelEvent.clusterDeleted :: (dtr ++ ntr) ∧
      natRouterCleanup wDelEnv ("c1" ++ "-nat-router") 1 = some ntr ∧
      (wDelEnv.listDisksOk = true →
        deleteDisksLoop wDelEnv 1 (wDelEnv.disks.filter (fun d => diskSelected "c1" d)) = some dtr) ∧
      (wDelEnv.listDisksOk = false → dtr = [DelEvent.diskListFailed])) ∧
    DelEvent.submitRouterDelete "ghost-router" ∉ cexTrace3 :=
  ⟨C3_delete_sequencing.1 "c1" cexEnv3a 1 0 (by decide),
   C3_delete_sequencing.2.1 "c1" wDelEnv 1 wDelTrace (by decide),
   C3_delete_sequencing.2.2 "c1" cexEnv3 1 true cexTrace3 "ghost-router" (by decide) (by decide)⟩

/-- C8 (amended): the create, delete and scale intents each return a
Boolean result and `main` exits with code 0 exactly when that result is
success (otherwise code 1); the list intent, however, returns no
success/failure result to `main` and always exits with code 0, even when
the listing call fails. -/
theorem C8_exit_codes :
    (∀ (name : String) (noSpot : Bool) (nodes : Nat) (pool : Option String)
        (env : MainEnv) (fuel ec : Nat),
        mainExitCode CliAction.create name noSpot nodes pool env fuel = some ec →
        ((ec = 0) ↔ ∃ o, create_gke_cluster name (!noSpot) env.createEnv fuel = some o ∧
          o.result = true)) ∧
    (∀ (name : String) (noSpot : Bool) (nodes : Nat) (pool : Option String)
        (env : MainEnv) (fuel ec : Nat),
        mainExitCode CliAction.delete name noSpot nodes pool env fuel = some ec →
        ((ec = 0) ↔ ∃ p, delete_cluster name env.deleteEnv fuel = some p ∧ p.1 = true)) ∧
    (∀ (name : String) (noSpot : Bool) (nodes : Nat) (pool : Option String)
        (env : MainEnv) (fuel ec : Nat),
        mainExitCode CliAction.scale name noSpot nodes pool env fuel = some ec →
        ((ec = 0) ↔ ∃ o, scale_cluster env.scaleCluster nodes pool env.scaleStreams fuel = some o ∧
          o.result = true)) ∧
    (∀ (name : String) (noSpot : Bool) (nodes : Nat) (pool : Option String)
        (env : MainEnv) (fuel : Nat),
        mainExitCode CliAction.list name noSpot nodes pool env fuel = some 0) := by
  refine ⟨?_, ?_, ?_, ?_⟩
  · intro name noSpot nodes pool env fuel ec h
    simp only [mainExitCode, Option.map_eq_some'] at h
    obtain ⟨o, ho, hec⟩ := h
    constructor
    · intro h0
      refine ⟨o, ho, ?_⟩
      cases hr : o.result with
      | true => rfl
      | false => rw [hr] at hec; rw [h0] at hec; simp at hec
    · rintro ⟨o2, ho2, hr2⟩
      rw [ho] at ho2
      injection ho2 with ho2
      rw [← hec, ho2, hr2]
      simp
  · intro name noSpot nodes pool env fuel ec h
    simp only [mainExitCode, Option.map_eq_some'] at h
    obtain ⟨p, hp, hec⟩ := h
    constructor
    · intro h0
      refine ⟨p, hp, ?_⟩
      cases hr : p.1 with
      | true => rfl
      | false => rw [hr] at hec; rw [h0] at hec; simp at hec
    · rintro ⟨p2, hp2, hr2⟩
      rw [hp] at hp2
      injection hp2 with hp2
      rw [← hec, hp2, hr2]
      simp
  · intro name noSpot nodes pool env fuel ec h
    simp only [mainExitCode, Option.map_eq_some'] at h
    obtain ⟨o, ho, hec⟩ := h
    constructor
    · intro h0
      refine ⟨o, ho, ?_⟩
      cases hr : o.result with
      | true => rfl
      | false => rw [hr] at hec; rw [h0] at hec; simp at hec
    · rintro ⟨o2, ho2, hr2⟩
      rw [ho] at ho2
      injection ho2 with ho2
      rw [← hec, ho2, hr2]
      simp
  · intro name noSpot nodes pool env fuel
    rfl

/-- C8 counterexample: the claim says every intent returns a success or
failure result and a failing intent exits non-zero; but a `list` invocation
whose listing call fails (`listResp = none` in `cexEnv8`) still exits with
code 0. -/
theorem C8_counterexample :
    mainExitCode CliAction.list "cost-optimized-cluster" false 0 none cexEnv8 1 = some 0 ∧
    cexEnv8.listResp = none :=
  ⟨rfl, rfl⟩

/-- C8 witness: concrete exits — a successful create and delete exit 0, a
Scale whose aggregate failed exits 1. -/
theorem C8_witness :
    (((0 : Nat) = 0) ↔
      ∃ o, create_gke_cluster "c1" (!false) wMainEnv.createEnv 1 = some o ∧ o.result = true) ∧
    (((0 : Nat) = 0) ↔
      ∃ p, delete_cluster "c1" wMainEnv.deleteEnv 1 = some p ∧ p.1 = true) ∧
    (((1 : Nat) = 0) ↔
      ∃ o, scale_cluster wMainEnv.scaleCluster 5 none wMainEnv.scaleStreams 5 = some o ∧
        o.result = true) :=
  ⟨C8_exit_codes.1 "c1" false 0 none wMainEnv 1 0 (by decide),
   C8_exit_codes.2.1 "c1" false 0 none wMainEnv 1 0 (by decide),
   C8_exit_codes.2.2.1 "c1" false 5 none wMainEnv 5 1 (by decide)⟩

/-- C9 (amended): in Scale the set of submitted mutations is fixed before
any polling (it does not depend on the status streams or the fuel), and
each round of the drain loop polls every still-unresolved member; but in
Delete's disk-cleanup stage the disks are processed strictly sequentially —
each disk's deletion is submitted and resolved before the next disk's
deletion is submitted. -/
theorem C9_concurrency :
    (∀ (c : Cluster) (target : Nat) (pool : Option String)
        (s1 s2 : String → Nat → CtrStatus) (f1 f2 : Nat) (o1 o2 : ScaleOutcome),
        scale_cluster (some c) target pool s1 f1 = some o1 →
        scale_cluster (some c) target pool s2 f2 = some o2 →
        o1.submitted = o2.submitted) ∧
    (∀ (streams : String → Nat → CtrStatus) (r : Nat)
        (st : List (String × Option Bool)) (i : Nat) (n : String),
        st[i]? = some (n, none) →
        (pollRound streams r st)[i]? = some (n, pollOnce (streams n r))) ∧
    (∀ (env : DeleteEnv) (fuel : Nat) (d : String) (rest : List String)
        (tr : List DelEvent),
        deleteDisksLoop env fuel (d :: rest) = some tr →
        ∃ tr2, deleteDisksLoop env fuel rest = some tr2 ∧
          (tr = DelEvent.submitDiskDelete d :: DelEvent.diskDeleted d :: tr2 ∨
           tr = DelEvent.diskDeleteFailed d :: tr2)) := by
  refine ⟨?_, ?_, ?_⟩
  · intro c target pool s1 s2 f1 f2 o1 o2 h1 h2
    by_cases hs : c.status = ClusterStatus.running
    · simp only [scale_cluster] at h1 h2
      rw [if_pos hs] at h1 h2
      cases pool with
      | none =>
        rw [runScale_submitted c.nodePools target s1 f1 o1 h1,
            runScale_submitted c.nodePools target s2 f2 o2 h2]
      | some p =>
        by_cases he : (c.nodePools.filter (fun q => q.name == p)).isEmpty = true
        · simp only [he, if_true, Option.some.injEq] at h1 h2
          rw [← h1, ← h2]
        · simp only [he, if_false, Bool.false_eq_true] at h1 h2
          rw [runScale_submitted _ target s1 f1 o1 h1,
              runScale_submitted _ target s2 f2 o2 h2]
    · simp only [scale_cluster] at h1 h2
      rw [if_neg hs] at h1 h2
      simp only [Option.some.injEq] at h1 h2
      rw [← h1, ← h2]
  · intro streams r st i n h
    unfold pollRound
    rw [List.getElem?_map, h]
    rfl
  · intro env fuel d rest tr h
    simp only [deleteDisksLoop] at h
    by_cases hs : env.diskSubmitOk d = true
    · rw [if_pos hs] at h
      cases hw : diskDeleteWait (env.diskOpStream d) fuel with
      | none => rw [hw] at h; exact absurd h (by simp)
      | some t =>
        rw [hw] at h
        simp only [Option.map_eq_some'] at h
        obtain ⟨tr2, h2, h3⟩ := h
        exact ⟨tr2, h2, Or.inl h3.symm⟩
    · rw [if_neg hs] at h
      simp only [Option.map_eq_some'] at h
      obtain ⟨tr2, h2, h3⟩ := h
      exact ⟨tr2, h2, Or.inr h3.symm⟩

/-- C9 counterexample: the claim says no member's mutation submission waits
for another member's resolution; but in the disk stage of the `cexEnv9`
run, the second disk's deletion is submitted strictly after the first
disk's deletion has resolved. -/
theorem C9_counterexample :
    delete_cluster "c1" cexEnv9 1 = some (true, cexTrace9) ∧
    List.indexOf (DelEvent.diskDeleted "gke-c1-pvc-a") cexTrace9 <
      List.indexOf (DelEvent.submitDiskDelete "gke-c1-pvc-b") cexTrace9 :=
  ⟨by decide, by decide⟩

/-- C9 witness: the submissions of a Scale run do not depend on the
polling streams; one poll round polls an unresolved member; and the disk
loop's trace decomposes disk by disk. -/
theorem C9_witness :
    wOutcome.submitted = wOutcomeFast.submitted ∧
    (pollRound wStreams 0 [("ml-pool", none)])[0]? =
      some ("ml-pool", pollOnce (wStreams "ml-pool" 0)) ∧
    (∃ tr2, deleteDisksLoop wDelEnv 1 ["gke-c1-pvc-b"] = some tr2 ∧
      (wDiskTrace = DelEvent.submitDiskDelete "gke-c1-pvc-a" ::
          DelEvent.diskDeleted "gke-c1-pvc-a" :: tr2 ∨
       wDiskTrace = DelEvent.diskDeleteFailed "gke-c1-pvc-a" :: tr2)) :=
  ⟨C9_concurrency.1 wCluster 5 none wStreams wFastStreams 5 1 wOutcome wOutcomeFast
     (by decide) (by decide),
   C9_concurrency.2.1 wStreams 0 [("ml-pool", none)] 0 "ml-pool" (by decide),
   C9_concurrency.2.2 wDelEnv 1 "gke-c1-pvc-a" ["gke-c1-pvc-b"] wDiskTrace (by decide)⟩
